import Mathlib

/-!
# Verification of the Dictation Session Controller

A shallow embedding of `src/app/src/gui.rs` from the
`deepgram-voice-keyboard` repository (the `app/` copy is the current one;
the root `src/gui.rs` copy is an earlier revision of the same logic).

The embedding models:

* the process environment (`std::env::var` / `std::env::set_var`) as an
  association list with first-match lookup;
* the GUI state (`VoiceKeyboardGui`): the `is_recording` flag, the
  `status_message` string, the shared `voice_keyboard_process`
  child-handle slot, and the configured API key;
* OS child processes abstractly as numeric ids, with the multiset of
  currently-running children tracked in `live` so that leaked (never
  terminated) children stay observable;
* the two toggle entry points: the hotkey listener thread's branch
  (`VoiceKeyboardGui::new`, lines 174-264) and the UI message handler
  (`Message::ToggleDictation` dispatching to `start_dictation` /
  `stop_dictation`);
* the teardown path (`impl Drop for VoiceKeyboardGui`);
* the graceful/forced termination protocol and its action trace;
* the audio-cue emission code as a list of actions, to reason about how
  long the caller is blocked.

`.unwrap()` on `std::env::current_exe()` is modelled as a `panic`
outcome when the executable location is unavailable.
-/

namespace VoiceKeyboard

/-! ## Process environment -/

/-- Lookup in the process environment, modelling `std::env::var`:
`none` when the variable is unset. The environment is an association
list; the first matching entry wins. -/
def envGet (e : List (String × String)) (n : String) : Option String :=
  (e.find? (fun p => p.1 == n)).map (fun p => p.2)

/-- `std::env::set_var`: the new binding shadows any earlier one. -/
def envSet (e : List (String × String)) (n v : String) : List (String × String) :=
  (n, v) :: e

/-! ## Launch-spec environment forwarding

`start_dictation` (lines 317-341) and the hotkey start branch
(lines 233-257) build the `pkexec env` argument list identically:
`DEEPGRAM_API_KEY={key}` unconditionally, then each of the six optional
variables only when `std::env::var` returns `Ok`. -/

/-- The six optional allow-listed variables, forwarded only when set
(source lines 322-339 and 238-255). -/
def optionalAllowlist : List String :=
  ["PULSE_RUNTIME_PATH", "XDG_RUNTIME_DIR", "DISPLAY", "WAYLAND_DISPLAY", "HOME", "USER"]

/-- The full allow-list of forwardable variable names. -/
def envAllowlist : List String := "DEEPGRAM_API_KEY" :: optionalAllowlist

/-- The `NAME=value` assignments placed after `pkexec env`, as built by
both start paths: the API key assignment first, then every optional
allow-listed variable that is present in the environment `e`. -/
def launchEnvAssignments (e : List (String × String)) (apiKey : String) :
    List (String × String) :=
  ("DEEPGRAM_API_KEY", apiKey) ::
    optionalAllowlist.filterMap (fun n => (envGet e n).map (fun v => (n, v)))

/-- The hotkey start branch's guard (lines 225-226): a start is permitted
only when `DEEPGRAM_API_KEY` is set in the process environment and
non-empty. -/
def hotkeyStartPermitted (e : List (String × String)) : Bool :=
  match envGet e "DEEPGRAM_API_KEY" with
  | some k => k != ""
  | none => false

/-! ## System state -/

/-- The state of the running application relevant to the session
controller. `handle` is the `Arc<Mutex<Option<Child>>>` slot shared
between the GUI and the hotkey thread; `live` is the list of ids of OS
child processes that have been spawned and not yet terminated (a child
whose handle is overwritten without termination stays in `live`);
`currentExe` is what `std::env::current_exe()` would return (`none` for
failure); `spawnOk` models whether `Command::spawn` succeeds;
`lastLaunchEnv` records the env assignments of the most recent launch
attempt. -/
structure Sys where
  configApiKey : String
  isRecording : Bool
  statusMessage : String
  handle : Option Nat
  env : List (String × String)
  currentExe : Option String
  spawnOk : Bool
  nextChild : Nat
  live : List Nat
  lastLaunchEnv : Option (List (String × String))
deriving DecidableEq, Repr

/-- Result of one entry-point call: either a normal return with the new
state, or a Rust panic (from `.unwrap()`), carrying the state at the
moment of the panic. -/
inductive Outcome where
  | ok (s : Sys)
  | panicked (s : Sys)
deriving DecidableEq, Repr

/-- Whether the call returned normally. -/
def Outcome.isOk : Outcome → Bool
  | .ok _ => true
  | .panicked _ => false

/-- The state after the call (at the panic point, for a panic). -/
def afterStep : Outcome → Sys
  | .ok s => s
  | .panicked s => s

/-- The state constructed in `VoiceKeyboardGui::new`: not recording,
status `"Ready"`, empty handle slot, no children spawned yet. -/
def initSys (cfgKey : String) (env : List (String × String))
    (exe : Option String) (spawnOk : Bool) : Sys :=
  { configApiKey := cfgKey
    isRecording := false
    statusMessage := "Ready"
    handle := none
    env := env
    currentExe := exe
    spawnOk := spawnOk
    nextChild := 0
    live := []
    lastLaunchEnv := none }

/-! ## The two toggle entry points -/

/-- `VoiceKeyboardGui::start_dictation` (lines 301-354).
Order of effects: (1) `std::env::set_var("DEEPGRAM_API_KEY", config.api_key)`
-- unconditionally, including an empty configured key; (2) play the start
cue; (3) `std::env::current_exe().unwrap()` -- panics when the location
cannot be determined; (4) build the `pkexec env ...` command; (5) spawn:
on success the new child handle *overwrites* the slot (any previous child
is neither killed nor waited on), `is_recording := true`, status
`"Recording..."`; on failure only the status is set. There is no API-key
check on this path. The spawn error text is abstracted to a fixed
string. -/
def startDictation (s : Sys) : Outcome :=
  let s1 := { s with env := envSet s.env "DEEPGRAM_API_KEY" s.configApiKey }
  match s1.currentExe with
  | none => .panicked s1
  | some _exeDir =>
    let s2 := { s1 with
      lastLaunchEnv := some (launchEnvAssignments s1.env s1.configApiKey) }
    if s2.spawnOk then
      .ok { s2 with
        handle := some s2.nextChild
        live := s2.nextChild :: s2.live
        nextChild := s2.nextChild + 1
        isRecording := true
        statusMessage := "Recording..." }
    else
      .ok { s2 with statusMessage := "Failed to start: spawn error" }

/-- `VoiceKeyboardGui::stop_dictation` (lines 356-378). Plays the stop
cue, then `take()`s the handle: when a child is held, runs the
termination protocol (modelled in `runTermination` below; the child is
no longer running afterwards, hence removed from `live`), clears the
flag and sets status `"Stopped"`. When the slot is empty nothing besides
the cue happens -- in particular `is_recording` and the status are left
unchanged. -/
def stopDictation (s : Sys) : Sys :=
  match s.handle with
  | some c =>
    { s with
      handle := none
      live := s.live.erase c
      isRecording := false
      statusMessage := "Stopped" }
  | none => s

/-- `Message::ToggleDictation` in `VoiceKeyboardGui::update`
(lines 404-410): dispatch on the GUI's own `is_recording` flag. -/
def uiToggle (s : Sys) : Outcome :=
  if s.isRecording then .ok (stopDictation s) else startDictation s

/-- The hotkey listener thread's toggle (lines 174-264). It locks the
shared handle slot and dispatches on `process_lock.is_some()` -- it
never reads or writes `is_recording` or the status message. The stop
branch plays the cue and runs the termination protocol on the taken
child. The start branch plays the cue, then requires
`std::env::var("DEEPGRAM_API_KEY")` to be set and non-empty (silently
doing nothing otherwise), resolves `current_exe().unwrap()` (panic on
failure), builds the same `pkexec env` command, and on spawn success
stores the child; a spawn failure is silently ignored. -/
def hotkeyToggle (s : Sys) : Outcome :=
  match s.handle with
  | some c =>
    .ok { s with handle := none, live := s.live.erase c }
  | none =>
    match envGet s.env "DEEPGRAM_API_KEY" with
    | some k =>
      if k == "" then .ok s
      else
        match s.currentExe with
        | none => .panicked s
        | some _exeDir =>
          let s2 := { s with lastLaunchEnv := some (launchEnvAssignments s.env k) }
          if s2.spawnOk then
            .ok { s2 with
              handle := some s2.nextChild
              live := s2.nextChild :: s2.live
              nextChild := s2.nextChild + 1 }
          else .ok s2
    | none => .ok s

/-- `impl Drop for VoiceKeyboardGui` (lines 111-130): `take()` the
handle; when a child is held, run the 1-second termination protocol
(kill, poll, kill, blocking wait), after which the child is not
running. -/
def dropGui (s : Sys) : Sys :=
  match s.handle with
  | some c => { s with handle := none, live := s.live.erase c }
  | none => s

/-! ## Termination protocol

Both `stop_dictation` (lines 360-374) and the hotkey stop branch
(lines 189-204) run: `child.kill()`; then a poll loop
`while elapsed < 2s { try_wait: Some => break, None => sleep 100ms }`;
then `child.kill(); child.wait()`.  `Drop` (lines 114-127) runs the
same shape with a 1-second window and 50ms sleeps.

`std::process::Child::kill` "forces the child process to exit" and on
Unix sends `SIGKILL`; the adjacent source comment claims
"Send SIGTERM first for graceful shutdown", but no `SIGTERM` is ever
sent anywhere in the source.  The child's behaviour is abstracted as a
function `exited : Nat → Bool` giving, for each elapsed millisecond
count, whether `try_wait` would report an exit at that moment. -/

/-- One observable action of the termination protocol. `sigterm` is
never produced by the source; it is included so its absence can be
stated. -/
inductive TermAction where
  | sigterm
  | sigkill
  | tryWait
  | sleepMs (n : Nat)
  | waitBlocking
deriving DecidableEq, Repr

/-- The grace window and poll interval of one termination call site. -/
structure TermSpec where
  windowMs : Nat
  intervalMs : Nat
deriving DecidableEq, Repr

/-- `stop_dictation` and the hotkey stop branch: 2-second window,
100ms poll sleeps. -/
def stopTermSpec : TermSpec := ⟨2000, 100⟩

/-- `Drop for VoiceKeyboardGui`: 1-second window, 50ms poll sleeps. -/
def dropTermSpec : TermSpec := ⟨1000, 50⟩

/-- Elapsed milliseconds consumed by the poll loop: starting from
elapsed time `t`, with at most `fuel` iterations remaining (the source
loop runs while `elapsed < window`, so `fuel = window / interval`),
return the elapsed time at which the loop exits. -/
def pollElapsed (exited : Nat → Bool) (interval : Nat) : Nat → Nat → Nat
  | 0, t => t
  | fuel + 1, t => if exited t then t else pollElapsed exited interval fuel (t + interval)

/-- The actions performed by the poll loop: each iteration is a
`try_wait`, followed by a `sleep interval` when the child has not yet
exited. -/
def pollTrace (exited : Nat → Bool) (interval : Nat) : Nat → Nat → List TermAction
  | 0, _ => []
  | fuel + 1, t =>
    if exited t then [TermAction.tryWait]
    else TermAction.tryWait :: TermAction.sleepMs interval ::
      pollTrace exited interval fuel (t + interval)

/-- The full action trace of one termination-protocol run: the initial
`child.kill()` (a forceful `SIGKILL` despite the source comment), the
poll loop, then the unconditional final `child.kill()` and blocking
`child.wait()`. -/
def termTrace (spec : TermSpec) (exited : Nat → Bool) : List TermAction :=
  TermAction.sigkill ::
    (pollTrace exited spec.intervalMs (spec.windowMs / spec.intervalMs) 0 ++
      [TermAction.sigkill, TermAction.waitBlocking])

/-- The observable outcome of one termination-protocol run: whether the
child is still running when the protocol returns (never -- the final
kill-and-blocking-wait guarantees exit), the elapsed poll time, and
whether the poll loop observed the exit within the window. -/
structure TermOutcome where
  running : Bool
  elapsedMs : Nat
  observedExit : Bool
deriving DecidableEq, Repr

/-- Run the termination protocol of `spec` against child behaviour
`exited`. -/
def runTermination (spec : TermSpec) (exited : Nat → Bool) : TermOutcome :=
  let t := pollElapsed exited spec.intervalMs (spec.windowMs / spec.intervalMs) 0
  { running := false, elapsedMs := t, observedExit := exited t }

/-! ## Audio cue emission

`play_beep` (lines 272-279), `play_start_beep` (lines 281-299) and the
hotkey thread's inline copies of the two cues (lines 182-187 and
207-221). Frequencies are in Hz, durations in ms, amplitudes in
thousandths (0.3 => 300, 0.35 => 350) -- every float literal in the
source is an exact small decimal. -/

/-- One action of a cue emission as executed on the calling thread:
`appendTone` enqueues a synthesized tone on the shared sink (returns
immediately); `sleepMs` is a `std::thread::sleep` executed by the
caller itself. -/
inductive CueAction where
  | appendTone (freqHz durMs amplThousandths : Nat)
  | sleepMs (n : Nat)
deriving DecidableEq, Repr

/-- `play_beep(frequency)`: a single 100ms tone at amplitude 0.3,
enqueued and nothing else. The stop cue is `play_beep(400.0)`; the
hotkey stop branch inlines the same 400Hz tone. -/
def playBeepActions (freqHz : Nat) : List CueAction :=
  [CueAction.appendTone freqHz 100 300]

/-- `play_start_beep()`: enqueue an 80ms 1000Hz tone, then
`std::thread::sleep(50ms)` on the calling thread ("Short pause"), then
enqueue an 80ms 1200Hz tone. The hotkey start branch inlines the same
sequence, sleep included. -/
def playStartBeepActions : List CueAction :=
  [CueAction.appendTone 1000 80 350, CueAction.sleepMs 50,
    CueAction.appendTone 1200 80 350]

/-- Milliseconds for which a cue emission blocks its caller beyond the
enqueue calls themselves: the sum of the sleeps it executes. -/
def cueBlockingMs (actions : List CueAction) : Nat :=
  (actions.map (fun a => match a with | CueAction.sleepMs n => n | _ => 0)).sum

/-- A toggle event from one of the two trigger sources. -/
inductive Ev where
  | hotkey
  | ui
deriving DecidableEq, Repr

/-- One toggle event step. -/
def stepEv (s : Sys) (e : Ev) : Outcome :=
  match e with
  | .hotkey => hotkeyToggle s
  | .ui => uiToggle s

/-- Run a sequence of toggle events, stopping at the first panic. -/
def runEvs (s : Sys) : List Ev → Outcome
  | [] => .ok s
  | e :: es =>
    match stepEv s e with
    | .ok s' => runEvs s' es
    | .panicked s' => .panicked s'

/-! ## Session predicates -/

/-- The spec's session invariant: the child handle is present iff the
recording state is Recording. -/
def invariantSync (s : Sys) : Prop := s.handle.isSome = s.isRecording

instance (s : Sys) : Decidable (invariantSync s) :=
  inferInstanceAs (Decidable (_ = _))

/-- The running children accounted for by the held handle. -/
def handleLive (s : Sys) : List Nat :=
  match s.handle with
  | some c => [c]
  | none => []

/-- The held handle owns exactly the running children: there is one live
child when a handle is held and none otherwise. -/
def handleOwnsLive (s : Sys) : Prop := s.live = handleLive s

instance (s : Sys) : Decidable (handleOwnsLive s) :=
  inferInstanceAs (Decidable (_ = _))

/-- What survives of the back-to-back-toggle guarantee once both trigger
sources are considered: two consecutive toggles from the *same* source
(hotkey-hotkey, given a permitted start; or UI-UI, given the handle and
`is_recording` agree) complete without panic, alternate the source's own
notion of state, and never leave more than one live child. -/
def sameSourcePairOk (s : Sys) : Prop :=
  (hotkeyStartPermitted s.env = true →
    (hotkeyToggle s).isOk = true ∧
    (hotkeyToggle (afterStep (hotkeyToggle s))).isOk = true ∧
    (afterStep (hotkeyToggle s)).handle.isSome = !s.handle.isSome ∧
    (afterStep (hotkeyToggle (afterStep (hotkeyToggle s)))).handle.isSome
      = s.handle.isSome ∧
    (afterStep (hotkeyToggle s)).live.length ≤ 1 ∧
    (afterStep (hotkeyToggle (afterStep (hotkeyToggle s)))).live.length ≤ 1) ∧
  (invariantSync s →
    (uiToggle s).isOk = true ∧
    (uiToggle (afterStep (uiToggle s))).isOk = true ∧
    (afterStep (uiToggle s)).isRecording = !s.isRecording ∧
    (afterStep (uiToggle (afterStep (uiToggle s)))).isRecording
      = s.isRecording ∧
    (afterStep (uiToggle s)).live.length ≤ 1 ∧
    (afterStep (uiToggle (afterStep (uiToggle s)))).live.length ≤ 1)

/-- Behaviour of the start paths when `std::env::current_exe()` fails:
the UI path panics after having already mutated the global environment,
and the hotkey path panics when its key guard permitted the start; no
child is spawned and no status message is set on either path. -/
def exeUnwrapPanics (s : Sys) : Prop :=
  (s.isRecording = false →
    uiToggle s
      = Outcome.panicked { s with env := envSet s.env "DEEPGRAM_API_KEY" s.configApiKey }) ∧
  (s.handle = none → hotkeyStartPermitted s.env = true →
    hotkeyToggle s = Outcome.panicked s)

/-! ## Concrete states for counterexamples and witnesses -/

/-- A freshly started application with a non-empty key in the
environment, a resolvable executable path and working spawns. -/
def c1CexInit : Sys := initSys "key" [("DEEPGRAM_API_KEY", "key")] (some "dir") true

/-- Same configuration, used for the double-toggle counterexample. -/
def c2CexInit : Sys := initSys "key" [("DEEPGRAM_API_KEY", "key")] (some "dir") true

/-- A synced recording state used to witness the same-source guarantee. -/
def c2AmendedW : Sys :=
  { initSys "key" [("DEEPGRAM_API_KEY", "key")] (some "dir") true with
    isRecording := true, handle := some 0, live := [0], nextChild := 1 }

/-- An application whose configured API key is empty. -/
def c3CexInit : Sys := initSys "" [] (some "dir") true

/-- An idle application whose environment lacks the API key. -/
def c3AmendedW : Sys := initSys "key" [("HOME", "/home/user")] (some "dir") true

/-- An initial state used to witness the UI-only invariant. -/
def c1AmendedW : Sys := initSys "key" [] (some "dir") true

/-- The environment used to witness the launch-spec forwarding. -/
def c6EnvW : List (String × String) :=
  [("DEEPGRAM_API_KEY", "key"), ("HOME", "/home/user"), ("PATH", "/usr/bin")]

/-- A recording state holding child 0, used to witness teardown. -/
def c7W : Sys :=
  { initSys "key" [] (some "dir") true with
    isRecording := true, handle := some 0, live := [0], nextChild := 1 }

/-- A fresh application used to reach, via a hotkey start followed by a
UI toggle, the double-start state in which teardown orphans a child. -/
def c7CexInit : Sys := initSys "key" [("DEEPGRAM_API_KEY", "key")] (some "dir") true

/-- A state in which `current_exe()` fails. -/
def c8CexInit : Sys := initSys "key" [("DEEPGRAM_API_KEY", "key")] none true

/-- A recording-free state with an unresolvable executable path. -/
def c8AmendedW : Sys := initSys "key" [("DEEPGRAM_API_KEY", "key")] none false

/-- A state used to witness the UI start's environment write. -/
def c10W : Sys := initSys "" [("DEEPGRAM_API_KEY", "old")] (some "dir") true

/-! ## Helper lemmas -/

/-- The poll loop advances by at most `fuel` sleeps of `interval` ms. -/
theorem pollElapsed_le (exited : Nat → Bool) (interval : Nat) :
    ∀ fuel t, pollElapsed exited interval fuel t ≤ t + fuel * interval := by
  intro fuel
  induction fuel with
  | zero => intro t; simp [pollElapsed]
  | succ n ih =>
    intro t
    unfold pollElapsed
    by_cases h : exited t
    · simp [h]
    · simp only [h, if_false]
      calc pollElapsed exited interval n (t + interval)
          ≤ t + interval + n * interval := ih (t + interval)
        _ ≤ t + (n + 1) * interval := by ring_nf; omega

/-- One completed UI toggle preserves the handle/`is_recording`
agreement. -/
theorem uiToggle_preserves_sync {s s' : Sys} (h : invariantSync s)
    (hstep : uiToggle s = Outcome.ok s') : invariantSync s' := by
  unfold invariantSync at h ⊢
  unfold uiToggle at hstep
  by_cases hr : s.isRecording
  · rw [if_pos hr] at hstep
    cases hstep
    unfold stopDictation
    cases hh : s.handle with
    | some c => simp
    | none => rw [hh] at h; simp [hh] at h; rw [hr] at h; exact absurd h (by decide)
  · rw [if_neg hr] at hstep
    unfold startDictation at hstep
    cases hexe : s.currentExe with
    | none => simp [hexe] at hstep
    | some d =>
      simp only [hexe] at hstep
      by_cases hsp : s.spawnOk
      · simp only [hsp, if_true] at hstep
        cases hstep
        simp
      · simp only [hsp, if_false] at hstep
        cases hstep
        simp only [Bool.not_eq_true] at hr
        simpa [hr] using h

/-! ## Claim theorems -/

/-- C4 (code bug): the first termination action ever sent to a live
child, both on user-initiated stop and on teardown, is the forceful
`Child::kill` (SIGKILL on Unix); no graceful SIGTERM is sent at any
point, although the source comment claims "Send SIGTERM first for
graceful shutdown". Evaluated against a child that never exits on its
own. -/
theorem first_termination_action_is_forceful :
    (termTrace stopTermSpec (fun _ => false)).head? = some TermAction.sigkill ∧
    (termTrace dropTermSpec (fun _ => false)).head? = some TermAction.sigkill ∧
    TermAction.sigterm ∉ termTrace stopTermSpec (fun _ => false) ∧
    TermAction.sigterm ∉ termTrace dropTermSpec (fun _ => false) := by
  refine ⟨rfl, rfl, ?_, ?_⟩ <;> decide

/-- C5: the termination protocol polls at a fixed interval of at most
150ms (100ms on user stop, 50ms on teardown) within a bounded grace
window (2000ms on user stop, 1000ms on teardown); the poll loop's
elapsed time never exceeds the window; the trace always ends with a
forceful kill followed by a final blocking wait; and the protocol
returns with the child no longer running, whatever the child's exit
behaviour. -/
theorem termination_protocol_bounded (exited : Nat → Bool) :
    stopTermSpec.intervalMs = 100 ∧ dropTermSpec.intervalMs = 50 ∧
    stopTermSpec.intervalMs ≤ 150 ∧ dropTermSpec.intervalMs ≤ 150 ∧
    stopTermSpec.windowMs = 2000 ∧ dropTermSpec.windowMs = 1000 ∧
    (runTermination stopTermSpec exited).elapsedMs ≤ stopTermSpec.windowMs ∧
    (runTermination dropTermSpec exited).elapsedMs ≤ dropTermSpec.windowMs ∧
    (runTermination stopTermSpec exited).running = false ∧
    (runTermination dropTermSpec exited).running = false ∧
    termTrace stopTermSpec exited
      = (TermAction.sigkill :: pollTrace exited 100 20 0)
        ++ [TermAction.sigkill, TermAction.waitBlocking] ∧
    termTrace dropTermSpec exited
      = (TermAction.sigkill :: pollTrace exited 50 20 0)
        ++ [TermAction.sigkill, TermAction.waitBlocking] := by
  refine ⟨rfl, rfl, by decide, by decide, rfl, rfl, ?_, ?_, rfl, rfl, rfl, rfl⟩
  · simpa [runTermination, stopTermSpec] using
      pollElapsed_le exited 100 20 0
  · simpa [runTermination, dropTermSpec] using
      pollElapsed_le exited 50 20 0

/-- C9 (counterexample): the two-tone start cue blocks its caller for
50ms beyond the enqueue calls -- the "short pause" between the two tones
is a `std::thread::sleep` executed on the calling thread. -/
theorem start_cue_blocks_caller_cex :
    cueBlockingMs playStartBeepActions = 50 ∧
    cueBlockingMs playStartBeepActions ≠ 0 := by decide

/-- C9 (amended): a single-tone cue emission (`play_beep`, used for the
stop cue at any frequency) blocks the caller only for the enqueue
itself, but the two-tone start cue additionally blocks the calling
transition for its fixed 50ms inter-tone sleep. -/
theorem cue_blocking_times (freqHz : Nat) :
    cueBlockingMs (playBeepActions freqHz) = 0 ∧
    cueBlockingMs playStartBeepActions = 50 :=
  ⟨rfl, rfl⟩

/-- C3 (counterexample): a Start-button press with an empty configured
API key is not refused -- with a working spawn it completes and reaches
the Recording state with status `"Recording..."` (and no ConfigMissing
message exists anywhere in the source). -/
theorem empty_key_ui_start_records_cex :
    (uiToggle c3CexInit).isOk = true ∧
    (afterStep (uiToggle c3CexInit)).isRecording = true ∧
    (afterStep (uiToggle c3CexInit)).statusMessage = "Recording..." := by
  decide

/-- C3 (amended): only the hotkey-thread start path enforces the key
requirement, and it does so silently: when the process environment's
`DEEPGRAM_API_KEY` is unset or empty and no child is held, a hotkey
toggle returns with the state completely unchanged -- no spawn, state
still idle, and no status message set. The UI start path performs no
key check at all. -/
theorem hotkey_start_refused_without_key (s : Sys) (hidle : s.handle = none)
    (hkey : hotkeyStartPermitted s.env = false) :
    hotkeyToggle s = Outcome.ok s := by
  unfold hotkeyToggle
  rw [hidle]
  unfold hotkeyStartPermitted at hkey
  cases hk : envGet s.env "DEEPGRAM_API_KEY" with
  | none => rfl
  | some k =>
    rw [hk] at hkey
    simp only [bne_eq_false_iff_eq] at hkey
    simp [hkey]

/-- Witness for `hotkey_start_refused_without_key` at a concrete idle
state whose environment lacks the key. -/
theorem hotkey_start_refused_without_key_witness :
    hotkeyToggle c3AmendedW = Outcome.ok c3AmendedW :=
  hotkey_start_refused_without_key c3AmendedW (by decide) (by decide)

/-- C6: the `NAME=value` assignments handed to `pkexec env` are exactly
the allow-listed variables present in the controller's environment
(with their exact values), given that `DEEPGRAM_API_KEY` itself is
present with the forwarded value -- which holds at both call sites: the
hotkey path reads the key from the environment, and the UI path has
just written it there. An unset allow-listed variable is absent and in
particular is never forwarded with an empty value. -/
theorem launch_env_exactly_allowlisted (e : List (String × String)) (k : String)
    (hk : envGet e "DEEPGRAM_API_KEY" = some k) (n v : String) :
    ((n, v) ∈ launchEnvAssignments e k ↔ n ∈ envAllowlist ∧ envGet e n = some v) ∧
    (envGet e n = none → (n, v) ∉ launchEnvAssignments e k) := by
  constructor
  · unfold launchEnvAssignments envAllowlist
    constructor
    · intro hmem
      rcases List.mem_cons.mp hmem with heq | hfm
      · obtain ⟨hn, hv⟩ := Prod.mk.injEq .. ▸ heq
        subst hn; subst hv
        exact ⟨List.mem_cons_self _ _, hk⟩
      · obtain ⟨m, hm, hfme⟩ := List.mem_filterMap.mp hfm
        obtain ⟨w, hw, hmw⟩ := Option.map_eq_some'.mp hfme
        obtain ⟨hmn, hwv⟩ := Prod.mk.injEq .. ▸ hmw
        subst hmn; subst hwv
        exact ⟨List.mem_cons_of_mem _ hm, hw⟩
    · rintro ⟨hmem, hget⟩
      rcases List.mem_cons.mp hmem with heq | hopt
      · subst heq
        rw [hk] at hget
        cases hget
        exact List.mem_cons_self _ _
      · refine List.mem_cons_of_mem _ (List.mem_filterMap.mpr ⟨n, hopt, ?_⟩)
        rw [hget]
        rfl
  · intro hnone hmem
    unfold launchEnvAssignments at hmem
    rcases List.mem_cons.mp hmem with heq | hfm
    · obtain ⟨hn, _⟩ := Prod.mk.injEq .. ▸ heq
      subst hn
      rw [hk] at hnone
      cases hnone
    · obtain ⟨m, _, hfme⟩ := List.mem_filterMap.mp hfm
      obtain ⟨w, hw, hmw⟩ := Option.map_eq_some'.mp hfme
      obtain ⟨hmn, _⟩ := Prod.mk.injEq .. ▸ hmw
      subst hmn
      rw [hw] at hnone
      cases hnone

/-- Witness for `launch_env_exactly_allowlisted`: in a concrete
environment, the set `HOME` is forwarded with its value. -/
theorem launch_env_exactly_allowlisted_witness :
    ("HOME", "/home/user") ∈ launchEnvAssignments c6EnvW "key" :=
  ((launch_env_exactly_allowlisted c6EnvW "key" (by decide) "HOME" "/home/user").1).mpr
    ⟨by decide, by decide⟩

/-- C7 (counterexample): a hotkey start followed by a UI toggle reaches
a Recording state (`is_recording = true`) with two live children of
which only child 1 is held; teardown (`Drop`) takes and terminates the
single held child, so the application exits with child 0 still
running -- an orphaned child process. -/
theorem teardown_leaves_orphan_cex :
    (runEvs c7CexInit [Ev.hotkey, Ev.ui]).isOk = true ∧
    (afterStep (runEvs c7CexInit [Ev.hotkey, Ev.ui])).isRecording = true ∧
    (afterStep (runEvs c7CexInit [Ev.hotkey, Ev.ui])).handle = some 1 ∧
    (dropGui (afterStep (runEvs c7CexInit [Ev.hotkey, Ev.ui]))).handle = none ∧
    (dropGui (afterStep (runEvs c7CexInit [Ev.hotkey, Ev.ui]))).live = [0] := by
  decide

/-- C7 (amended): on teardown, `Drop` runs the termination protocol on
the held child only: the handle is cleared and the teardown protocol
returns only with that child not running, whatever its exit behaviour.
When the held handle accounts for all live children -- one held child,
as in every state the spec considers reachable -- no child survives
teardown; but a child leaked by the double-start handle overwrite is no
longer held and is orphaned when the application exits. -/
theorem teardown_terminates_held_child (s : Sys) (c : Nat) (hc : s.handle = some c)
    (hol : handleOwnsLive s) :
    (dropGui s).handle = none ∧ (dropGui s).live = [] ∧
    ∀ exited : Nat → Bool, (runTermination dropTermSpec exited).running = false := by
  have hl : s.live = [c] := by
    unfold handleOwnsLive handleLive at hol
    rw [hc] at hol
    exact hol
  unfold dropGui
  rw [hc]
  exact ⟨rfl, by simp [hl, List.erase_cons_head], fun _ => rfl⟩

/-- Witness for `teardown_terminates_held_child` at a concrete
recording state holding child 0 and owning exactly that live child. -/
theorem teardown_terminates_held_child_witness :
    (dropGui c7W).handle = none ∧ (dropGui c7W).live = [] ∧
    ∀ exited : Nat → Bool, (runTermination dropTermSpec exited).running = false :=
  teardown_terminates_held_child c7W 0 (by decide) (by decide)

/-- C8 (counterexample): with an undeterminable executable location,
a Start press does not produce a recoverable `PathResolutionError`
status -- the call panics (does not return normally); the status is
still `"Ready"` and nothing was spawned. -/
theorem exe_resolution_panics_cex :
    (uiToggle c8CexInit).isOk = false ∧
    (hotkeyToggle c8CexInit).isOk = false ∧
    (afterStep (uiToggle c8CexInit)).statusMessage = "Ready" ∧
    (afterStep (uiToggle c8CexInit)).live = [] := by decide

/-- C8 (amended): when `std::env::current_exe()` fails, both start
paths `.unwrap()` it and panic: the start neither spawns a child nor
sets any status message, and the failure propagates as an unhandled
panic out of the calling context (the UI path having already mutated
the global environment). -/
theorem exe_resolution_unwrap_panics (s : Sys) (hexe : s.currentExe = none) :
    exeUnwrapPanics s := by
  constructor
  · intro hrec
    unfold uiToggle startDictation
    simp [hrec, hexe]
  · intro hidle hperm
    unfold hotkeyToggle
    rw [hidle]
    unfold hotkeyStartPermitted at hperm
    cases hk : envGet s.env "DEEPGRAM_API_KEY" with
    | none => rw [hk] at hperm; cases hperm
    | some k =>
      rw [hk] at hperm
      have hke : (k == "") = false := beq_eq_false_iff_ne.mpr (bne_iff_ne.mp hperm)
      simp [hke, hexe]

/-- Witness for `exe_resolution_unwrap_panics` at a concrete state with
an unresolvable executable path. -/
theorem exe_resolution_unwrap_panics_witness : exeUnwrapPanics c8AmendedW :=
  exe_resolution_unwrap_panics c8AmendedW (by decide)

/-- C10: every UI-initiated start first writes the configured API key
(whatever it is, including the empty string) into the process-wide
`DEEPGRAM_API_KEY` variable -- the write survives in the resulting
state on every path, spawn success, spawn failure and panic alike --
and the hotkey-thread start guard subsequently reads exactly that
written value: after a UI start it permits a hotkey start iff the
configured key is non-empty. -/
theorem ui_start_sets_global_env (s : Sys) (hrec : s.isRecording = false) :
    envGet (afterStep (uiToggle s)).env "DEEPGRAM_API_KEY" = some s.configApiKey ∧
    hotkeyStartPermitted (afterStep (uiToggle s)).env = (s.configApiKey != "") := by
  have henv : (afterStep (uiToggle s)).env
      = envSet s.env "DEEPGRAM_API_KEY" s.configApiKey := by
    unfold uiToggle
    rw [hrec]
    unfold startDictation
    cases hexe : s.currentExe with
    | none => simp [afterStep]
    | some d =>
      by_cases hsp : s.spawnOk
      · simp [hsp, afterStep]
      · simp [hsp, afterStep]
  rw [henv]
  constructor
  · unfold envGet envSet
    simp [List.find?]
  · unfold hotkeyStartPermitted envGet envSet
    simp [List.find?]

/-- Witness for `ui_start_sets_global_env`: a UI start with an empty
configured key overwrites a previously non-empty environment key with
the empty string, and the hotkey guard then refuses. -/
theorem ui_start_sets_global_env_witness :
    envGet (afterStep (uiToggle c10W)).env "DEEPGRAM_API_KEY" = some c10W.configApiKey ∧
    hotkeyStartPermitted (afterStep (uiToggle c10W)).env = (c10W.configApiKey != "") :=
  ui_start_sets_global_env c10W (by decide)

/-- C1 (counterexample): a single completed hotkey-initiated start
(key present and non-empty, spawn succeeds) leaves the child handle
present while the recording state is not Recording -- the hotkey thread
mutates only the shared handle slot and never `is_recording`. -/
theorem hotkey_start_breaks_sync_cex :
    (hotkeyToggle c1CexInit).isOk = true ∧
    (afterStep (hotkeyToggle c1CexInit)).handle.isSome = true ∧
    (afterStep (hotkeyToggle c1CexInit)).isRecording = false := by decide

/-- C1 (amended): the invariant `handle.is_some() == (state ==
Recording)` holds after every sequence of completed *UI-button* toggle
transitions from any state satisfying it (in particular from the
initial state); a hotkey-thread toggle updates only the handle, so the
equivalence can fail after a completed hotkey-initiated transition. -/
theorem invariant_after_ui_toggles (s : Sys) (h : invariantSync s) (l : List Ev)
    (hl : ∀ e ∈ l, e = Ev.ui) (s' : Sys) (hrun : runEvs s l = Outcome.ok s') :
    invariantSync s' := by
  induction l generalizing s with
  | nil =>
    unfold runEvs at hrun
    cases hrun
    exact h
  | cons e es ih =>
    have he : e = Ev.ui := hl e (List.mem_cons_self e es)
    subst he
    unfold runEvs at hrun
    cases hstep : stepEv s Ev.ui with
    | ok s1 =>
      rw [hstep] at hrun
      simp only [stepEv] at hstep
      exact ih s1 (uiToggle_preserves_sync h hstep)
        (fun e hme => hl e (List.mem_cons_of_mem _ hme)) hrun
    | panicked s1 =>
      rw [hstep] at hrun
      cases hrun

/-- Witness for `invariant_after_ui_toggles`: two UI toggles from a
concrete initial state. -/
theorem invariant_after_ui_toggles_witness :
    invariantSync (afterStep (runEvs c1AmendedW [Ev.ui, Ev.ui])) :=
  invariant_after_ui_toggles c1AmendedW (by decide) [Ev.ui, Ev.ui] (by decide)
    (afterStep (runEvs c1AmendedW [Ev.ui, Ev.ui])) (by decide)

/-- C2 (counterexample): two back-to-back toggles, a hotkey start
followed by a UI-button toggle, both complete normally yet produce a
*double start*: the UI path keys off the stale `is_recording` flag,
spawns a second child and overwrites the handle, leaving two live child
processes. -/
theorem mixed_toggles_double_start_cex :
    (runEvs c2CexInit [Ev.hotkey, Ev.ui]).isOk = true ∧
    (afterStep (runEvs c2CexInit [Ev.hotkey, Ev.ui])).live.length = 2 ∧
    (afterStep (runEvs c2CexInit [Ev.hotkey, Ev.ui])).handle = some 1 := by decide

/-- C2 (amended): two back-to-back toggles from the *same* source do
behave as claimed -- two hotkey toggles (with a permitted start) or two
UI toggles (from a state where the handle and `is_recording` agree)
complete as two sequential opposite transitions with never more than
one live child; the original claim fails only across sources, where a
hotkey start followed by a UI toggle double-starts. -/
theorem same_source_double_toggle (s : Sys) (hol : handleOwnsLive s)
    (hexe : s.currentExe.isSome = true) (hsp : s.spawnOk = true) :
    sameSourcePairOk s := by
  obtain ⟨d, hd⟩ := Option.isSome_iff_exists.mp hexe
  unfold sameSourcePairOk
  constructor
  · intro hperm
    cases hk : envGet s.env "DEEPGRAM_API_KEY" with
    | none =>
      unfold hotkeyStartPermitted at hperm
      rw [hk] at hperm
      cases hperm
    | some k =>
      have hke : (k == "") = false := by
        unfold hotkeyStartPermitted at hperm
        rw [hk] at hperm
        exact beq_eq_false_iff_ne.mpr (bne_iff_ne.mp hperm)
      cases hh : s.handle with
      | some c =>
        have hl : s.live = [c] := by
          unfold handleOwnsLive handleLive at hol
          rw [hh] at hol
          exact hol
        simp [hotkeyToggle, afterStep, Outcome.isOk, hh, hk, hke, hd, hsp, hl,
          List.erase_cons_head]
      | none =>
        have hl : s.live = [] := by
          unfold handleOwnsLive handleLive at hol
          rw [hh] at hol
          exact hol
        simp [hotkeyToggle, afterStep, Outcome.isOk, hh, hk, hke, hd, hsp, hl,
          List.erase_cons_head]
  · intro hsync
    unfold invariantSync at hsync
    by_cases hr : s.isRecording
    · cases hh : s.handle with
      | none =>
        rw [hh, hr] at hsync
        exact absurd hsync (by decide)
      | some c =>
        have hl : s.live = [c] := by
          unfold handleOwnsLive handleLive at hol
          rw [hh] at hol
          exact hol
        simp [uiToggle, startDictation, stopDictation, afterStep, Outcome.isOk,
          hr, hh, hd, hsp, hl, List.erase_cons_head]
    · cases hh : s.handle with
      | some c =>
        rw [hh] at hsync
        simp only [Option.isSome_some] at hsync
        exact absurd hsync.symm hr
      | none =>
        have hl : s.live = [] := by
          unfold handleOwnsLive handleLive at hol
          rw [hh] at hol
          exact hol
        simp [uiToggle, startDictation, stopDictation, afterStep, Outcome.isOk,
          hr, hh, hd, hsp, hl, List.erase_cons_head]

/-- Witness for `same_source_double_toggle` at a concrete synced
recording state. -/
theorem same_source_double_toggle_witness : sameSourcePairOk c2AmendedW :=
  same_source_double_toggle c2AmendedW (by decide) (by decide) (by decide)

end VoiceKeyboard
